import Mathlib

/-!
Verification development for the tcad_local_parser pipeline.

Shallow embedding of the classification, scoring, routing, deduplication,
merge and fixed-width extraction logic of the repository:

  - src/scripts/filter_notes.py          (namespace FilterNotes)
  - src/scripts/note_broker_refine.py    (namespace NoteBroker)
  - src/scripts/group_by_owner.py        (namespace GroupByOwner)
  - src/scripts/classify_entity_roles.py (namespace ClassifyRoles)
  - src/scripts/merge_enrichment.py      (namespace MergeEnrich)
  - src/main.py                          (namespace PropMain)

Modelling conventions:
  - Python `str` is Lean `String`; `.upper()` is `String.pyUpper`,
    `.strip()` is `String.pyStrip`, substring containment (`in`) is `hasSubstr`.
  - Python `float` values are modelled by `ℚ`; the pipeline only compares
    amounts against integer thresholds and never relies on binary-float
    rounding, so the embedding is faithful on every comparison the code
    performs.  Exotic float literal syntax (exponents, inf, nan,
    underscores) is not modelled by the numeric parsers; the claims below
    never depend on such inputs.
  - Python `int(...)` / `float(...)` calls that can raise `ValueError`
    are modelled as `Option`-returning parsers; a function whose Python
    original can raise mid-record returns `Option` and yields `none`
    exactly when the original raises.
  - CSV rows read by `csv.DictReader` are modelled by the structure `Row`
    whose fields default to `""` (an absent column and an empty value are
    indistinguishable to every `row.get(key, "")` access in these
    scripts).  `merge_enrichment.py` additionally distinguishes key
    presence (`"email" not in output_row`), so that script is modelled
    over association lists instead.
  - Clock-dependent quantities (`datetime.now()` inside
    `get_recording_age_years`) enter the embedding as explicit
    parameters (`recording_age : Option ℚ`).
-/

/-! ## Generic helpers shared by the scripts -/

/-- Python `str.strip()` (on the whitespace characters Lean's
`Char.isWhitespace` recognises), as a kernel-reducible list traversal. -/
def String.pyStrip (s : String) : String :=
  ⟨((s.data.dropWhile Char.isWhitespace).reverse.dropWhile Char.isWhitespace).reverse⟩

/-- Python `str.upper()` (ASCII case mapping), as a kernel-reducible list
traversal. -/
def String.pyUpper (s : String) : String := ⟨s.data.map Char.toUpper⟩

/-- Bool test used for Python string truthiness chains: `a or b`. -/
def pyOr (a b : String) : String := if a ≠ "" then a else b

/-- `needle` occurs as a contiguous sublist of `hay` (Python `needle in hay`). -/
def subListB : List Char → List Char → Bool
  | n, [] => n.isEmpty
  | n, c :: t => List.isPrefixOf n (c :: t) || subListB n t

/-- Python substring containment `sub in hay` on strings. -/
def hasSubstr (hay sub : String) : Bool := subListB sub.toList hay.toList

/-- Whitespace-chunking of a character list (groups separated by whitespace,
empty groups included at each separator). -/
def wsChunks (l : List Char) : List (List Char) :=
  l.foldr
    (fun c acc =>
      if c.isWhitespace then [] :: acc
      else
        match acc with
        | [] => [[c]]
        | g :: rest => (c :: g) :: rest)
    []

/-- Python `str.split()` with no argument: split on whitespace runs, dropping empties. -/
def pySplit (s : String) : List String :=
  ((wsChunks s.toList).filter (fun p => p ≠ [])).map String.mk

/-- All characters are ASCII digits. -/
def allDigits (l : List Char) : Bool := l.all Char.isDigit

/-- Numeric value of a digit list (most significant first). -/
def digitsVal (l : List Char) : Nat := l.foldl (fun acc c => acc * 10 + (c.toNat - 48)) 0

/-- Python `int(s)`: strip whitespace, optional sign, nonempty digit run.
`none` models the `ValueError` raise. -/
def pyInt? (s : String) : Option Int :=
  let cs := s.pyStrip.toList
  match cs with
  | '-' :: rest => if rest ≠ [] ∧ allDigits rest then some (-(digitsVal rest : Int)) else none
  | '+' :: rest => if rest ≠ [] ∧ allDigits rest then some (digitsVal rest : Int) else none
  | rest => if rest ≠ [] ∧ allDigits rest then some (digitsVal rest : Int) else none

/-- Python `float(s)` on an already-cleaned string: optional sign, decimal
digits with an optional single point, at least one digit.  `none` models the
`ValueError` raise. -/
def pyFloat? (s : String) : Option ℚ :=
  let cs := s.toList
  let signed : ℚ × List Char :=
    match cs with
    | '-' :: t => (-1, t)
    | '+' :: t => (1, t)
    | t => (1, t)
  let sign := signed.1
  let rest := signed.2
  let intPart := rest.takeWhile (fun c => c ≠ '.')
  let tail := rest.dropWhile (fun c => c ≠ '.')
  match tail with
  | [] =>
      if intPart ≠ [] ∧ allDigits intPart then some (sign * (digitsVal intPart : ℚ)) else none
  | '.' :: frac =>
      if allDigits intPart ∧ allDigits frac ∧ (intPart ≠ [] ∨ frac ≠ []) then
        some (sign * ((digitsVal intPart : ℚ) + (digitsVal frac : ℚ) / (10 ^ frac.length : ℚ)))
      else none
  | _ :: _ => none

/-- `s.strip().replace("$", "").replace(",", "").replace(" ", "")`. -/
def stripMoney (s : String) : String :=
  String.mk (s.pyStrip.toList.filter (fun c => c ≠ '$' ∧ c ≠ ',' ∧ c ≠ ' '))

/-- Truncation toward zero, Python `int(float_value)`. -/
def truncQ (q : ℚ) : Int := if 0 ≤ q then ⌊q⌋ else ⌈q⌉

/-- Group a digit string with thousands separators (used by `f"{n:,}"`). -/
def commaGroupRev : List Char → List Char
  | a :: b :: c :: d :: rest => a :: b :: c :: ',' :: commaGroupRev (d :: rest)
  | l => l

/-- Thousands-separated rendering of a natural number. -/
def commaGroup (n : Nat) : String :=
  String.mk ((commaGroupRev (toString n).toList.reverse).reverse)

/-- Rendering of `f"{q:.1f}"`.  The decimal rounding of the source's binary
floats is approximated over `ℚ` (round half up); no claim depends on it. -/
def fmt1 (q : ℚ) : String :=
  let n : Int := ⌊q * 10 + 1 / 2⌋
  (if n < 0 then "-" else "") ++ toString (n.natAbs / 10) ++ "." ++ toString (n.natAbs % 10)

/-- Rendering of `f"{q:,.0f}"`, approximated over `ℚ` as `fmt1` is. -/
def fmtComma0 (q : ℚ) : String :=
  let n : Int := ⌊q + 1 / 2⌋
  (if n < 0 then "-" else "") ++ commaGroup n.natAbs

/-- Rendering of Python `str(float)`, approximated over `ℚ`: integral values
print as `x.0`; no claim inspects the non-integral case. -/
def pyFloatRepr (q : ℚ) : String :=
  if q.den = 1 then toString q.num ++ ".0" else toString q

/-- A CSV row as the scripts read it (`csv.DictReader`): every column the
scripts access, with `""` for a blank or absent value.  `Email`/`Phone` are
the capitalised column variants checked by `note_broker_refine.py`. -/
structure Row where
  lead_id : String := ""
  full_name : String := ""
  company_name : String := ""
  owner_type : String := ""
  email : String := ""
  Email : String := ""
  phone : String := ""
  Phone : String := ""
  mailing_address : String := ""
  mailing_city : String := ""
  mailing_state : String := ""
  mailing_zip : String := ""
  situs_address : String := ""
  situs_city : String := ""
  situs_state : String := ""
  property_count : String := ""
  total_value : String := ""
  improvement_value : String := ""
  engagement_score : String := ""
  tcad_account_id : String := ""
  why_flagged : String := ""
deriving DecidableEq, Repr

namespace FilterNotes

/-! Embedding of src/scripts/filter_notes.py. -/

def MAX_LOAN_AMOUNT : Nat := 500000
def MIN_AGE_YEARS : Nat := 3
def MAX_AGE_YEARS : Nat := 20

def BANK_KEYWORDS : List String :=
  ["BANK", "N.A.", "MORTGAGE", "SERVICING",
   "WELLS FARGO", "WELLS",
   "JPMORGAN", "JP MORGAN", "CHASE",
   "BANK OF AMERICA", "BANK OF AMER", "BOA",
   "CITIBANK", "CITI",
   "U.S. BANK", "US BANK", "USBANK",
   "PNC",
   "TRUIST",
   "CAPITAL ONE", "CAPITALONE",
   "REGIONS BANK", "REGIONS",
   "SUNTRUST",
   "BB&T", "BBT",
   "TD BANK",
   "HSBC",
   "BANK OF NEW YORK", "BNY",
   "DEUTSCHE BANK",
   "BARCLAYS",
   "MORGAN STANLEY",
   "GOLDMAN SACHS",
   "MERRILL LYNCH",
   "FIDELITY",
   "VANGUARD",
   "FEDERAL HOME LOAN", "FHLMC", "FREDDIE MAC",
   "FANNIE MAE", "FNMA",
   "GINNIE MAE", "GNMA",
   "FHA", "VA LOAN", "USDA"]

def DISCARD_DOC_TYPES : List String :=
  ["RELEASE", "SATISFACTION", "RELEASE OF LIEN", "SATISFACTION OF MORTGAGE", "CANCELLATION"]

/-- `parse_amount` (same body as `parse_float`). -/
def parse_amount (amount_str : String) : Option ℚ :=
  if amount_str.pyStrip = "" then none else pyFloat? (stripMoney amount_str)

/-- `is_bank_lender`. -/
def is_bank_lender (lender_name : String) : Bool :=
  if lender_name = "" then false
  else BANK_KEYWORDS.any (fun keyword => hasSubstr lender_name.pyUpper keyword)

/-- `is_discard_doc_type`. -/
def is_discard_doc_type (doc_type : String) : Bool :=
  if doc_type = "" then false
  else DISCARD_DOC_TYPES.any (fun keyword => hasSubstr doc_type.pyUpper keyword)

/-- `calculate_lead_score`.  The source returns early inside the BANK arm of
its owner-type `elif` chain; that test is hoisted first here, which is
equivalent because the string comparisons are mutually exclusive.  Each
section contributes its points and reasons exactly as the sequential `+=`
does; the final score is clamped and the first five reasons are joined. -/
def calculate_lead_score (owner_type : String) (loan_amount : Option ℚ)
    (doc_type : String) (recording_age : Option ℚ) (is_seller_finance : Bool) :
    Int × String :=
  if owner_type = "BANK" then (0, "bank lender") else
  let ownerPart : Int × List String :=
    if owner_type = "PERSON" then (40, ["person lender"])
    else if owner_type = "LLC" then (25, ["LLC lender"])
    else if owner_type = "TRUST" then (20, ["trust lender"])
    else (10, ["unknown owner type"])
  let amountPart : Int × List String :=
    match loan_amount with
    | some a =>
        if a ≠ 0 then
          if 10000 ≤ a ∧ a < 100000 then (25, ["small amount"])
          else if 100000 ≤ a ∧ a < 300000 then (30, ["medium amount"])
          else if 300000 ≤ a ∧ a < (MAX_LOAN_AMOUNT : ℚ) then (20, ["large amount"])
          else if a < 10000 then (10, ["very small amount"])
          else (0, [])
        else (-20, ["missing loan amount"])
    | none => (-20, ["missing loan amount"])
  let docPart : Int × List String :=
    if is_seller_finance then (25, ["seller finance doc"])
    else if doc_type ≠ "" then (10, ["other doc type"])
    else (-10, ["missing doc type"])
  let agePart : Int × List String :=
    match recording_age with
    | some r =>
        if r ≠ 0 then
          if 3 ≤ r ∧ r ≤ 10 then (10, ["recent recording"])
          else if 10 < r ∧ r ≤ 20 then (5, ["older recording"])
          else if r < 3 then (-5, ["very recent"])
          else (-10, ["very old"])
        else (-5, ["missing date"])
    | none => (-5, ["missing date"])
  let score := ownerPart.1 + amountPart.1 + docPart.1 + agePart.1
  let reasons := ownerPart.2 ++ amountPart.2 ++ docPart.2 ++ agePart.2
  (max 0 (min 100 score), String.intercalate " + " (reasons.take 5))

/-- `classify_row`.  The row/column-mapping indirection reduces to the four
extracted field strings; `recording_age` is
`get_recording_age_years(parse_date(recording_date_str))`, a clock-dependent
input passed as a parameter. -/
def classify_row (lender_name_raw loan_amount_str doc_type_raw : String)
    (recording_age : Option ℚ) : String × String :=
  let lender_name := lender_name_raw.pyStrip
  let doc_type := doc_type_raw.pyStrip
  let loan_amount := parse_amount loan_amount_str
  if is_bank_lender lender_name then
    ("DISCARD", "Lender is a bank or large financial institution")
  else if is_discard_doc_type doc_type then
    ("DISCARD", "Document type indicates release/satisfaction: " ++ doc_type)
  else if loan_amount = none ∧ lender_name = "" ∧ doc_type = "" then
    ("DISCARD", "Missing all critical fields (loan_amount, lender_name, doc_type)")
  else if recording_age.any (fun r => decide ((MAX_AGE_YEARS : ℚ) < r)) then
    (match recording_age with
     | some r => ("DISCARD", "Recording too old (" ++ fmt1 r ++ " years, max " ++
                    toString MAX_AGE_YEARS ++ ")")
     | none => ("DISCARD", ""))
  else
    match loan_amount with
    | none => ("REVIEW", "Missing loan_amount")
    | some a =>
        if a ≤ 0 then ("DISCARD", "Invalid loan amount: " ++ pyFloatRepr a)
        else if (MAX_LOAN_AMOUNT : ℚ) ≤ a then
          ("REVIEW", "Loan amount too large (" ++ fmtComma0 a ++ ", max " ++
             commaGroup MAX_LOAN_AMOUNT ++ ")")
        else if lender_name = "" then ("REVIEW", "Missing lender_name")
        else
          match recording_age with
          | none => ("REVIEW", "Missing or unparseable recording_date")
          | some r =>
              if r < (MIN_AGE_YEARS : ℚ) then
                ("REVIEW", "Recording too recent (" ++ fmt1 r ++ " years, min " ++
                   toString MIN_AGE_YEARS ++ ")")
              else if (MAX_AGE_YEARS : ℚ) < r then
                ("DISCARD", "Recording too old (" ++ fmt1 r ++ " years, max " ++
                   toString MAX_AGE_YEARS ++ ")")
              else ("LEAD", "Meets all criteria for seller-finance note lead")

end FilterNotes

namespace NoteBroker

/-! Embedding of src/scripts/note_broker_refine.py. -/

def NOTE_SWEET_SPOT_MIN : Nat := 150000
def NOTE_SWEET_SPOT_MAX : Nat := 400000

def WEIGHT_ABSENTEE_STRONG : Int := 30
def WEIGHT_ABSENTEE_WEAK : Int := 15
def WEIGHT_EMAIL : Int := 25
def WEIGHT_PHONE : Int := 20
def WEIGHT_STREET_ADDRESS : Int := 10
def WEIGHT_MULTIPLE_PROPERTIES : Int := 15
def WEIGHT_NOTE_SWEET_SPOT : Int := 20
def WEIGHT_SIMPLE_NAME : Int := 10

/-- `parse_amount` (identical body to the filter_notes one). -/
def parse_amount (amount_str : String) : Option ℚ :=
  if amount_str.pyStrip = "" then none else pyFloat? (stripMoney amount_str)

/-- `has_email`: `row.get("email","") or row.get("Email","")`, stripped, must
be nonempty and contain an `@`. -/
def has_email (row : Row) : Bool :=
  let email := (pyOr row.email row.Email).pyStrip
  email ≠ "" && hasSubstr email "@"

/-- `has_phone`: the phone value, stripped, must be nonempty with length ≥ 10. -/
def has_phone (row : Row) : Bool :=
  let phone := (pyOr row.phone row.Phone).pyStrip
  phone ≠ "" && decide (10 ≤ phone.length)

def po_box_indicators : List String :=
  ["PO BOX", "P.O. BOX", "P O BOX", "POBOX", "BOX ", "PMB", "SUITE"]

/-- `is_street_address`. -/
def is_street_address (address : String) : Bool :=
  if address = "" then false
  else !(po_box_indicators.any (fun indicator => hasSubstr address.pyUpper indicator))

/-- `is_strong_absentee`. -/
def is_strong_absentee (row : Row) : Bool :=
  let mailing_city := row.mailing_city.pyStrip.pyUpper
  let mailing_state := row.mailing_state.pyStrip.pyUpper
  let situs_city := row.situs_city.pyStrip.pyUpper
  let situs_state := row.situs_state.pyStrip.pyUpper
  if mailing_city = "" ∨ situs_city = "" then false
  else if mailing_state ≠ "" ∧ situs_state ≠ "" ∧ mailing_state ≠ situs_state then true
  else if mailing_city ≠ situs_city then true
  else false

/-- `is_weak_absentee`. -/
def is_weak_absentee (row : Row) : Bool :=
  let mailing_address := row.mailing_address.pyStrip.pyUpper
  let situs_address := row.situs_address.pyStrip.pyUpper
  let mailing_city := row.mailing_city.pyStrip.pyUpper
  let situs_city := row.situs_city.pyStrip.pyUpper
  if mailing_address = "" ∨ situs_address = "" then false
  else if mailing_city = situs_city ∧ mailing_address ≠ situs_address then true
  else false

def complex_patterns : List String := ["TRUST", "ESTATE", "HEIRS", "ET AL", "ETC", "UNKNOWN"]

/-- `is_simple_name`. -/
def is_simple_name (name : String) : Bool :=
  if name = "" then false
  else if 60 < name.length then false
  else !(complex_patterns.any (fun pattern => hasSubstr name.pyUpper pattern))

/-- `estimate_equity`. -/
def estimate_equity (row : Row) : Option ℚ :=
  match parse_amount row.total_value with
  | none => none
  | some total_value =>
      let improvement_value := (parse_amount row.improvement_value).getD 0
      let equity := total_value - improvement_value
      if 0 < equity then some equity else none

/-- `is_in_note_sweet_spot`. -/
def is_in_note_sweet_spot : Option ℚ → Bool
  | none => false
  | some total_value =>
      decide ((NOTE_SWEET_SPOT_MIN : ℚ) ≤ total_value ∧ total_value ≤ (NOTE_SWEET_SPOT_MAX : ℚ))

/-- `calculate_engagement_score`.  `int(row.get("property_count", "1") or "1")`
can raise `ValueError`; the parse is hoisted to the front (the raise does not
depend on the other signals) and `none` models the raise.  Each signal
contributes its points and reason in source order; the score is clamped and
the first six reasons are joined. -/
def calculate_engagement_score (row : Row) : Option (Int × String) :=
  match pyInt? (pyOr row.property_count "1") with
  | none => none
  | some property_count =>
      let emailPart : Int × List String :=
        if has_email row then (WEIGHT_EMAIL, ["has email"]) else (0, ["no email"])
      let phonePart : Int × List String :=
        if has_phone row then (WEIGHT_PHONE, ["has phone"]) else (0, ["no phone"])
      let addressPart : Int × List String :=
        if is_street_address row.mailing_address then
          (WEIGHT_STREET_ADDRESS, ["street address"])
        else (0, ["PO box or missing"])
      let absenteePart : Int × List String :=
        if is_strong_absentee row then (WEIGHT_ABSENTEE_STRONG, ["strong absentee"])
        else if is_weak_absentee row then (WEIGHT_ABSENTEE_WEAK, ["weak absentee"])
        else (0, ["owner occupied"])
      let multiPart : Int × List String :=
        if 3 ≤ property_count then
          (WEIGHT_MULTIPLE_PROPERTIES, [toString property_count ++ " properties"])
        else if property_count = 2 then
          (WEIGHT_MULTIPLE_PROPERTIES / 2, ["2 properties"])
        else (0, [])
      let total_value := parse_amount row.total_value
      let sweetPart : Int × List String :=
        if is_in_note_sweet_spot total_value then
          (WEIGHT_NOTE_SWEET_SPOT, ["note sweet spot value"])
        else (0, [])
      let owner_name := pyOr row.full_name row.company_name
      let simplePart : Int × List String :=
        if is_simple_name owner_name then (WEIGHT_SIMPLE_NAME, ["simple name"])
        else (0, [])
      let score := emailPart.1 + phonePart.1 + addressPart.1 + absenteePart.1 +
        multiPart.1 + sweetPart.1 + simplePart.1
      let reasons := emailPart.2 ++ phonePart.2 ++ addressPart.2 ++ absenteePart.2 ++
        multiPart.2 ++ sweetPart.2 ++ simplePart.2
      some (max 0 (min 100 score), String.intercalate " + " (reasons.take 6))

/-- `classify_for_note_broker`. -/
def classify_for_note_broker (row : Row) : Option (String × Int × String) :=
  match calculate_engagement_score row with
  | none => none
  | some (engagement_score, why_flagged) =>
      let has_contact_info := has_email row || has_phone row
      let _total_value := parse_amount row.total_value
      let _equity := estimate_equity row
      if has_contact_info = true ∧ 60 ≤ engagement_score then
        some ("HIGH_PRIORITY", engagement_score, why_flagged)
      else if 50 ≤ engagement_score then
        some ("MEDIUM_PRIORITY", engagement_score, why_flagged)
      else if 30 ≤ engagement_score then
        some ("LOW_PRIORITY", engagement_score, why_flagged)
      else
        some ("REVIEW", engagement_score, why_flagged)

/-- The four tier output streams of `process_targets_file`, each row carried
with its engagement score and reason string. -/
structure TierStreams where
  high : List (Row × Int × String)
  medium : List (Row × Int × String)
  low : List (Row × Int × String)
  review : List (Row × Int × String)
deriving DecidableEq, Repr

/-- The row-routing loop of `process_targets_file`: each classified row is
written to exactly one of the four tier streams (the enrichment display
columns added to the written row do not affect routing and are carried here
as the classified triple).  `none` models the run aborting on a row whose
`property_count` fails to parse. -/
def processTargets : List Row → Option TierStreams
  | [] => some ⟨[], [], [], []⟩
  | row :: rest =>
      match classify_for_note_broker row, processTargets rest with
      | some (t, s, w), some streams =>
          if t = "HIGH_PRIORITY" then some { streams with high := (row, s, w) :: streams.high }
          else if t = "MEDIUM_PRIORITY" then
            some { streams with medium := (row, s, w) :: streams.medium }
          else if t = "LOW_PRIORITY" then some { streams with low := (row, s, w) :: streams.low }
          else some { streams with review := (row, s, w) :: streams.review }
      | _, _ => none

end NoteBroker

namespace GroupByOwner

/-! Embedding of src/scripts/group_by_owner.py. -/

/-- `normalize_owner_key`: uppercased stripped `full_name` when nonempty,
otherwise uppercased stripped `company_name`, pipe-joined with the stripped
`mailing_zip`. -/
def normalize_owner_key (row : Row) : String :=
  let full_name := row.full_name.pyStrip.pyUpper
  let company_name := row.company_name.pyStrip.pyUpper
  let mailing_zip := row.mailing_zip.pyStrip
  let name := if full_name ≠ "" then full_name else company_name
  name ++ "|" ++ mailing_zip

/-- Append a row to its key's group in the insertion-ordered group table
(`owner_groups[owner_key].append(row)`). -/
def addToGroups : List (String × List Row) → String → Row → List (String × List Row)
  | [], key, row => [(key, [row])]
  | (key', group) :: rest, key, row =>
      if key' = key then (key', group ++ [row]) :: rest
      else (key', group) :: addToGroups rest key row

/-- The grouping pass of `group_properties_by_owner`: one full pass building
the key → members table in insertion order. -/
def groupsOf (rows : List Row) : List (String × List Row) :=
  rows.foldl (fun acc row => addToGroups acc (normalize_owner_key row) row) []

/-- The per-group consolidation of `group_properties_by_owner` restricted to
the fields the routing logic rewrites: the consolidated `engagement_score`
string and the `property_count_actual` value.  The first-seen member is the
base record; for a multi-member group the base record's score is parsed
(`int(base_row.get("engagement_score", "0") or "0")`, `none` models the
raise) and boosted by `min(10, count - 1)`, capped at 100.  The display-only
aggregates (`property_ids`, `total_portfolio_value`, the `why_flagged`
annotation) are not modelled. -/
def groupScoreCount : List Row → Option (String × Nat)
  | [] => none
  | base :: rest =>
      let count := (base :: rest).length
      if 1 < count then
        match pyInt? (pyOr base.engagement_score "0") with
        | none => none
        | some engagement_score =>
            some (toString (min 100 (engagement_score + min 10 ((count : Int) - 1))), count)
      else some (base.engagement_score, count)

end GroupByOwner

namespace ClassifyRoles

/-! Embedding of src/scripts/classify_entity_roles.py. -/

def INVESTOR_KEYWORDS : List String :=
  ["INVEST", "CAPITAL", "HOLDINGS", "EQUITY", "PARTNERS", "GROUP",
   "VENTURES", "PROPERTIES", "REAL ESTATE", "DEVELOPMENT"]

def TRUST_KEYWORDS : List String :=
  ["TRUST", "ESTATE", "FAMILY TRUST", "LIVING TRUST"]

def LEGAL_KEYWORDS : List String :=
  ["LAW", "ATTORNEY", "ESQ", "LEGAL", "COUNSEL", "PLLC"]

def BANK_KEYWORDS : List String :=
  ["BANK", "N.A.", "CREDIT UNION", "MORTGAGE", "SERVICING",
   "FNMA", "FREDDIE", "FHA", "VA", "USDA"]

def GOV_KEYWORDS : List String :=
  ["CITY OF", "COUNTY OF", "STATE OF", "AUTHORITY", "DISTRICT"]

def UTILITY_KEYWORDS : List String :=
  ["UTILITY", "ELECTRIC", "WATER", "SEWER", "FOUNDATION", "CHURCH"]

def entity_indicators : List String :=
  ["LLC", "INC", "CORP", "LTD", "LP", "LLP", "PC", "PA", "CO", "COMPANY"]

/-- `get_entity_name`: prefer the stripped `company_name`, else the stripped
`full_name`. -/
def get_entity_name (row : Row) : String :=
  let full_name := row.full_name.pyStrip
  let company_name := row.company_name.pyStrip
  if company_name ≠ "" then company_name else full_name

/-- `contains_keyword`: any keyword occurs in the uppercased text. -/
def contains_keyword (text : String) (keywords : List String) : Bool :=
  if text = "" then false
  else keywords.any (fun keyword => hasSubstr text.pyUpper keyword)

/-- First keyword of `keywords` occurring in `up` (`matched[0]`; only
evaluated under a guard that guarantees a match exists). -/
def firstMatch (up : String) (keywords : List String) : String :=
  ((keywords.filter (fun kw => hasSubstr up kw)).headD "")

/-- The corporate-indicator check on the uppercased entity name. -/
def has_entity_indicator (row : Row) : Bool :=
  entity_indicators.any (fun indicator => hasSubstr (get_entity_name row).pyUpper indicator)

/-- `classify_entity_role`.  The Python nested-`if` fallthrough (an inner
keyword double-check that falls through to the short-name block when it
fails) is flattened into an equivalent `if`-chain. -/
def classify_entity_role (row : Row) : String × String :=
  let entity_name := get_entity_name row
  if entity_name = "" then ("UNKNOWN", "no name provided")
  else
    let up := entity_name.pyUpper
    if contains_keyword entity_name BANK_KEYWORDS then
      ("BANK_INSTITUTION", "bank keyword: " ++ firstMatch up BANK_KEYWORDS)
    else if contains_keyword entity_name GOV_KEYWORDS then
      ("GOVERNMENT_ENTITY", "government keyword: " ++ firstMatch up GOV_KEYWORDS)
    else if contains_keyword entity_name UTILITY_KEYWORDS then
      ("UTILITY_OR_NONPROFIT", "utility keyword: " ++ firstMatch up UTILITY_KEYWORDS)
    else if contains_keyword entity_name TRUST_KEYWORDS then
      ("TRUST_ENTITY", "trust keyword: " ++ firstMatch up TRUST_KEYWORDS)
    else if contains_keyword entity_name INVESTOR_KEYWORDS then
      ("INVESTOR_ENTITY", "investor keyword: " ++ firstMatch up INVESTOR_KEYWORDS)
    else if contains_keyword entity_name LEGAL_KEYWORDS then
      ("LEGAL_ENTITY", "legal keyword: " ++ firstMatch up LEGAL_KEYWORDS)
    else
      let owner_type := row.owner_type.pyUpper
      let combined := INVESTOR_KEYWORDS ++ TRUST_KEYWORDS ++ LEGAL_KEYWORDS
      if (owner_type = "PERSON" ∧ has_entity_indicator row = false) ∧
          contains_keyword entity_name combined = false then
        ("INDIVIDUAL_PERSON", "owner_type=PERSON, no entity keywords")
      else if has_entity_indicator row = false ∧
          (pySplit entity_name).length ≤ 5 ∧
          contains_keyword entity_name combined = false ∧
          owner_type = "PERSON" then
        ("INDIVIDUAL_PERSON", "appears to be individual person")
      else
        ("UNKNOWN", "no matching keywords or patterns")

/-- `get_role_score_modifier`; `none` is the Python `None` (force discard). -/
def get_role_score_modifier (entity_role : String) : Option Int :=
  if entity_role = "INVESTOR_ENTITY" then some 20
  else if entity_role = "TRUST_ENTITY" then some 15
  else if entity_role = "INDIVIDUAL_PERSON" then some 10
  else if entity_role = "LEGAL_ENTITY" then some 5
  else if entity_role = "BANK_INSTITUTION" then none
  else if entity_role = "GOVERNMENT_ENTITY" then none
  else if entity_role = "UTILITY_OR_NONPROFIT" then none
  else if entity_role = "UNKNOWN" then some 0
  else some 0

/-- `is_excluded_role`. -/
def is_excluded_role (entity_role : String) : Bool :=
  entity_role = "BANK_INSTITUTION" ∨ entity_role = "GOVERNMENT_ENTITY" ∨
    entity_role = "UTILITY_OR_NONPROFIT"

/-- `parse_engagement_score`: `int(float(score_str))` with every failure
mapped to 0. -/
def parse_engagement_score (row : Row) : Int :=
  let score_str := row.engagement_score.pyStrip
  if score_str = "" then 0
  else match pyFloat? score_str with
       | some q => truncQ q
       | none => 0

/-- `apply_role_modifier`: `-1` signals exclusion. -/
def apply_role_modifier (base_score : Int) (modifier : Option Int) : Int :=
  match modifier with
  | none => -1
  | some m => min 100 (max 0 (base_score + m))

/-- `get_output_file_for_role`. -/
def get_output_file_for_role (entity_role : String) : String :=
  if entity_role = "INVESTOR_ENTITY" then "note_broker_investor_priority.csv"
  else if entity_role = "TRUST_ENTITY" then "note_broker_investor_priority.csv"
  else if entity_role = "INDIVIDUAL_PERSON" then "note_broker_individual_priority.csv"
  else if entity_role = "LEGAL_ENTITY" then "note_broker_legal_review.csv"
  else if entity_role = "BANK_INSTITUTION" then "note_broker_excluded_entities.csv"
  else if entity_role = "GOVERNMENT_ENTITY" then "note_broker_excluded_entities.csv"
  else if entity_role = "UTILITY_OR_NONPROFIT" then "note_broker_excluded_entities.csv"
  else if entity_role = "UNKNOWN" then "note_broker_individual_priority.csv"
  else "note_broker_individual_priority.csv"

/-- The per-row score rewrite of `process_entity_classification` (lines
297-307): the role's modifier applied to the parsed base score, with the
`-1` exclusion sentinel replaced by 0 before the row is written. -/
def pipelineModifiedScore (row : Row) : Int :=
  let entity_role := (classify_entity_role row).1
  let modifier := get_role_score_modifier entity_role
  let base_score := parse_engagement_score row
  let modified_score := apply_role_modifier base_score modifier
  if modified_score = -1 then 0 else modified_score

end ClassifyRoles

namespace MergeEnrich

/-! Embedding of src/scripts/merge_enrichment.py.  Rows are association
lists here because the script branches on key presence
(`"email" not in output_row`). -/

/-- A CSV row as a key → value association list with unique keys
(`csv.DictReader` yields one entry per header column). -/
abbrev Dict := List (String × String)

/-- Generic first-match association lookup. -/
def afind {α : Type} : List (String × α) → String → Option α
  | [], _ => none
  | (k', v) :: rest, k => if k' = k then some v else afind rest k

/-- `row.get(key, "")`. -/
def dget (d : Dict) (k : String) : String := (afind d k).getD ""

/-- `key in row`. -/
def dhas (d : Dict) (k : String) : Bool := (afind d k).isSome

/-- `row[key] = value`: replace in place when present, else append. -/
def dset : Dict → String → String → Dict
  | [], k, v => [(k, v)]
  | (k', v') :: rest, k, v =>
      if k' = k then (k, v) :: rest else (k', v') :: dset rest k v

/-- The per-row body of the `merge_enrichment` loop: returns the output row
and whether the lead matched the enrichment lookup. -/
def mergeRow (lookup : List (String × Dict)) (row : Dict) : Dict × Bool :=
  match afind lookup ((dget row "lead_id").pyStrip) with
  | some enrichment_row =>
      let email := (dget enrichment_row "email").pyStrip
      let row1 :=
        if email ≠ "" then dset row "email" email
        else if dhas row "email" = false then dset row "email" ""
        else row
      let phone := (dget enrichment_row "phone").pyStrip
      let row2 :=
        if phone ≠ "" then dset row1 "phone" phone
        else if dhas row1 "phone" = false then dset row1 "phone" ""
        else row1
      (row2, true)
  | none =>
      let row1 := if dhas row "email" = false then dset row "email" "" else row
      let row2 := if dhas row1 "phone" = false then dset row1 "phone" "" else row1
      (row2, false)

/-- `merge_enrichment`: the output rows in input order plus the `matched`
and `unmatched` counters. -/
def merge_enrichment (lookup : List (String × Dict)) : List Dict → List Dict × Nat × Nat
  | [] => ([], 0, 0)
  | row :: rest =>
      let out := merge_enrichment lookup rest
      let step := mergeRow lookup row
      (step.1 :: out.1,
       (if step.2 then 1 else 0) + out.2.1,
       (if step.2 then 0 else 1) + out.2.2)

end MergeEnrich

namespace PropMain

/-! Embedding of src/main.py (fixed-width extraction). -/

/-- `FIELD_SPECS`: 1-based inclusive positions, in declaration order. -/
def FIELD_SPECS : List (String × Nat × Nat) :=
  [("account_id", 1, 12),
   ("owner_name", 609, 678),
   ("situs_city", 1110, 1139),
   ("situs_state", 924, 925),
   ("situs_zip", 1140, 1149),
   ("mailing_address", 694, 753),
   ("mailing_city", 874, 923),
   ("mailing_state", 924, 925),
   ("mailing_zip", 979, 983),
   ("property_type", 13, 17),
   ("land_value", 1796, 1810),
   ("improvement_value", 1826, 1840),
   ("total_value", 1916, 1930),
   ("assessed_year", 18, 22),
   ("situs_street_prefx", 1040, 1049),
   ("situs_street", 1050, 1099),
   ("situs_street_suffix", 1100, 1109)]

def REQUIRED_COLUMNS : List String :=
  ["account_id", "owner_name", "situs_address", "situs_city", "situs_state", "situs_zip",
   "mailing_address", "mailing_city", "mailing_state", "mailing_zip", "property_type",
   "land_value", "improvement_value", "total_value", "assessed_year"]

/-- `max(end for _, end in FIELD_SPECS.values())`. -/
def maxEndPos : Nat := (FIELD_SPECS.map (fun f => f.2.2)).foldl Nat.max 0

/-- `extract_field`: 1-based inclusive slice, clamped like a Python slice,
stripped. -/
def extract_field (line : String) (start_pos end_pos : Nat) : String :=
  (String.mk ((line.toList.take end_pos).drop (start_pos - 1))).pyStrip

/-- Spec lookup by field name. -/
def specFor (field_name : String) : Option (Nat × Nat) :=
  MergeEnrich.afind FIELD_SPECS field_name

/-- `parse_numeric_field`. -/
def parse_numeric_field (value : String) : Option ℚ :=
  if value.pyStrip = "" then none
  else
    let cleaned := stripMoney value
    if cleaned ≠ "" then pyFloat? cleaned else none

/-- The exact rejection message for a short line. -/
def tooShortMsg (line_number length1 : Nat) : String :=
  "Line " ++ toString line_number ++ ": Line too short (expected at least " ++
    toString maxEndPos ++ " chars, got " ++ toString length1 ++ ")"

/-- `parse_line`: short lines are rejected with `tooShortMsg` and an empty
record; otherwise every required column is extracted (the situs address is
assembled from its nonempty subfields joined by single spaces, state fields
are cut to their first two characters) and the numeric columns are
validated, collecting `; `-joined error messages. -/
def parse_line (line : String) (line_number : Nat) :
    List (String × String) × Option String :=
  if line.length < maxEndPos then
    ([], some (tooShortMsg line_number line.length))
  else
    let situs_parts :=
      [extract_field line 1040 1049, extract_field line 1050 1099,
       extract_field line 1100 1109].filter (fun p => p ≠ "")
    let situs_address := (String.intercalate " " situs_parts).pyStrip
    let record := REQUIRED_COLUMNS.map (fun field_name =>
      if field_name = "situs_address" then (field_name, situs_address)
      else
        match specFor field_name with
        | some (start_pos, end_pos) =>
            let value := extract_field line start_pos end_pos
            let value :=
              if (field_name = "situs_state" ∨ field_name = "mailing_state") ∧
                  2 < value.length then
                (String.mk (value.toList.take 2)).pyStrip
              else value
            (field_name, value)
        | none => (field_name, ""))
    let errors := (["land_value", "improvement_value", "total_value"].filterMap
      (fun field_name =>
        let value := MergeEnrich.dget record field_name
        if value ≠ "" ∧ (parse_numeric_field value).isNone then
          some ("Line " ++ toString line_number ++
            ": Failed to parse numeric field \x27" ++ field_name ++ "\x27: \x27" ++
            value ++ "\x27")
        else none))
    (record, if errors = [] then none else some (String.intercalate "; " errors))

/-- The per-line loop of `process_property_file`: lines are numbered from
`n`, whitespace-only lines are skipped, and each parsed line is appended to
either the clean stream (line number and record) or the error stream (line
number, original content, reason) — never both. -/
def processLines (n : Nat) : List String →
    List (Nat × List (String × String)) × List (Nat × String × String)
  | [] => ([], [])
  | line :: rest =>
      let out := processLines (n + 1) rest
      if line.pyStrip = "" then out
      else
        match parse_line line n with
        | (record, none) => ((n, record) :: out.1, out.2)
        | (_, some msg) => (out.1, (n, line, msg) :: out.2)

end PropMain

namespace GroupByOwner

/-- The name component `normalize_owner_key` actually uses: the personal
`full_name`, with `company_name` only as a fallback when `full_name` strips
to empty. -/
def preferredName (row : Row) : String :=
  if row.full_name.pyStrip.pyUpper ≠ "" then row.full_name.pyStrip.pyUpper
  else row.company_name.pyStrip.pyUpper

end GroupByOwner

/-! ## Theorems -/

/-- Both clamp bounds of `max 0 (min 100 x)`. -/
lemma clamp_bounds (x : Int) : 0 ≤ max 0 (min 100 x) ∧ max 0 (min 100 x) ≤ 100 :=
  ⟨le_max_left 0 _, max_le (by norm_num) (min_le_left 100 x)⟩

/-- C1: a BANK lender short-circuits the pipeline: `calculate_lead_score`
returns score 0 (with reason "bank lender") whatever the loan amount, doc
type, recording age or seller-finance flag, and `classify_row` returns the
DISCARD disposition for any bank lender before any scoring. -/
theorem bank_lender_short_circuit :
    (∀ (loan_amount : Option ℚ) (doc_type : String) (recording_age : Option ℚ)
        (is_seller_finance : Bool),
      FilterNotes.calculate_lead_score "BANK" loan_amount doc_type recording_age
        is_seller_finance = (0, "bank lender")) ∧
    (∀ (lender_name_raw loan_amount_str doc_type_raw : String) (recording_age : Option ℚ),
      FilterNotes.is_bank_lender lender_name_raw.pyStrip = true →
      FilterNotes.classify_row lender_name_raw loan_amount_str doc_type_raw recording_age =
        ("DISCARD", "Lender is a bank or large financial institution")) := by
  constructor
  · intro la dt ra sf
    simp [FilterNotes.calculate_lead_score]
  · intro ln la dt ra h
    simp [FilterNotes.classify_row, h]

/-- Witness for C1 at the spec's scenario inputs. -/
theorem bank_lender_short_circuit_witness :
    FilterNotes.calculate_lead_score "BANK" (some 150000) "DEED OF TRUST" (some 5) true =
      (0, "bank lender") ∧
    FilterNotes.classify_row "WELLS FARGO BANK, N.A." "150,000" "DEED OF TRUST" (some 5) =
      ("DISCARD", "Lender is a bank or large financial institution") :=
  ⟨bank_lender_short_circuit.1 (some 150000) "DEED OF TRUST" (some 5) true,
   bank_lender_short_circuit.2 "WELLS FARGO BANK, N.A." "150,000" "DEED OF TRUST" (some 5)
     (by decide)⟩

/-- C2: every score either scoring function returns is an integer in
[0, 100]: `calculate_lead_score` for every owner type, amount, doc type,
recording age and seller-finance flag, and `calculate_engagement_score` for
every row on which it returns at all. -/
theorem score_bounds :
    (∀ (owner_type : String) (loan_amount : Option ℚ) (doc_type : String)
        (recording_age : Option ℚ) (is_seller_finance : Bool),
      0 ≤ (FilterNotes.calculate_lead_score owner_type loan_amount doc_type
              recording_age is_seller_finance).1 ∧
      (FilterNotes.calculate_lead_score owner_type loan_amount doc_type
          recording_age is_seller_finance).1 ≤ 100) ∧
    (∀ (row : Row) (score : Int) (why_flagged : String),
      NoteBroker.calculate_engagement_score row = some (score, why_flagged) →
      0 ≤ score ∧ score ≤ 100) := by
  constructor
  · intro ot la dt ra sf
    unfold FilterNotes.calculate_lead_score
    split
    · exact ⟨le_refl 0, by norm_num⟩
    · exact clamp_bounds _
  · intro row score why_flagged h
    unfold NoteBroker.calculate_engagement_score at h
    cases hpc : pyInt? (pyOr row.property_count "1") with
    | none => rw [hpc] at h; exact absurd h (by simp)
    | some pc =>
        rw [hpc] at h
        simp only [Option.some.injEq, Prod.mk.injEq] at h
        obtain ⟨h1, -⟩ := h
        rw [← h1]
        exact clamp_bounds _

/-- Witness for C2: a concrete lead-score input and a concrete row on which
the engagement score is returned. -/
theorem score_bounds_witness :
    (0 ≤ (FilterNotes.calculate_lead_score "PERSON" (some 150000) "DEED OF TRUST"
            (some 5) true).1 ∧
      (FilterNotes.calculate_lead_score "PERSON" (some 150000) "DEED OF TRUST"
          (some 5) true).1 ≤ 100) ∧
    (0 ≤ (0 : Int) ∧ (0 : Int) ≤ 100) :=
  ⟨score_bounds.1 "PERSON" (some 150000) "DEED OF TRUST" (some 5) true,
   score_bounds.2 ({} : Row) 0 "no email + no phone + PO box or missing + owner occupied"
     (by decide)⟩

/-- C7: `classify_entity_role` is total: every row gets exactly one category
from the closed taxonomy, and an absent name yields UNKNOWN with reason
"no name provided". -/
theorem classify_entity_role_total :
    (∀ row : Row, (ClassifyRoles.classify_entity_role row).1 ∈
        (["INVESTOR_ENTITY", "TRUST_ENTITY", "INDIVIDUAL_PERSON", "LEGAL_ENTITY",
          "BANK_INSTITUTION", "GOVERNMENT_ENTITY", "UTILITY_OR_NONPROFIT",
          "UNKNOWN"] : List String)) ∧
    (∀ row : Row, ClassifyRoles.get_entity_name row = "" →
        ClassifyRoles.classify_entity_role row = ("UNKNOWN", "no name provided")) := by
  constructor
  · intro row
    simp only [ClassifyRoles.classify_entity_role]
    split_ifs <;> simp
  · intro row h
    simp [ClassifyRoles.classify_entity_role, h]

/-- Witness for C7 at the empty row. -/
theorem classify_entity_role_total_witness :
    ClassifyRoles.classify_entity_role ({} : Row) = ("UNKNOWN", "no name provided") :=
  classify_entity_role_total.2 ({} : Row) (by decide)

/-- C10: any row whose preferred entity name contains the substring "VA"
(uppercased) is classified BANK_INSTITUTION, an excluded role routed to
note_broker_excluded_entities.csv with its engagement score forced to 0. -/
theorem va_substring_forces_bank_exclusion :
    ∀ row : Row, hasSubstr (ClassifyRoles.get_entity_name row).pyUpper "VA" = true →
      (ClassifyRoles.classify_entity_role row).1 = "BANK_INSTITUTION" ∧
      ClassifyRoles.is_excluded_role (ClassifyRoles.classify_entity_role row).1 = true ∧
      ClassifyRoles.get_output_file_for_role (ClassifyRoles.classify_entity_role row).1 =
        "note_broker_excluded_entities.csv" ∧
      ClassifyRoles.pipelineModifiedScore row = 0 := by
  intro row h
  by_cases hn : ClassifyRoles.get_entity_name row = ""
  · rw [hn] at h
    exact absurd h (by decide)
  · have hbank : ClassifyRoles.contains_keyword (ClassifyRoles.get_entity_name row)
        ClassifyRoles.BANK_KEYWORDS = true := by
      unfold ClassifyRoles.contains_keyword
      rw [if_neg hn, List.any_eq_true]
      exact ⟨"VA", by decide, h⟩
    have hcls : (ClassifyRoles.classify_entity_role row).1 = "BANK_INSTITUTION" := by
      unfold ClassifyRoles.classify_entity_role
      rw [if_neg hn, if_pos hbank]
    refine ⟨hcls, ?_, ?_, ?_⟩
    · rw [hcls]; decide
    · rw [hcls]; decide
    · unfold ClassifyRoles.pipelineModifiedScore
      rw [hcls]
      have hmod : ClassifyRoles.get_role_score_modifier "BANK_INSTITUTION" = none := by decide
      simp [hmod, ClassifyRoles.apply_role_modifier]

/-- Witness for C10 at the name "SILVA". -/
theorem va_substring_forces_bank_exclusion_witness :
    (ClassifyRoles.classify_entity_role ({ full_name := "SILVA" } : Row)).1 =
      "BANK_INSTITUTION" ∧
    ClassifyRoles.is_excluded_role
      (ClassifyRoles.classify_entity_role ({ full_name := "SILVA" } : Row)).1 = true ∧
    ClassifyRoles.get_output_file_for_role
      (ClassifyRoles.classify_entity_role ({ full_name := "SILVA" } : Row)).1 =
        "note_broker_excluded_entities.csv" ∧
    ClassifyRoles.pipelineModifiedScore ({ full_name := "SILVA" } : Row) = 0 :=
  va_substring_forces_bank_exclusion ({ full_name := "SILVA" } : Row) (by decide)

/-- C3: the note-broker router assigns each classified record exactly one
tier of {HIGH_PRIORITY, MEDIUM_PRIORITY, LOW_PRIORITY, REVIEW} in fixed
first-match order — HIGH_PRIORITY iff a contact channel is present and the
engagement score is ≥ 60, else MEDIUM_PRIORITY iff score ≥ 50, else
LOW_PRIORITY iff score ≥ 30, else REVIEW — and the four tier streams
partition the input: their row counts sum to the input row count. -/
theorem note_broker_tier_partition :
    (∀ (row : Row) (t : String) (s : Int) (w : String),
      NoteBroker.classify_for_note_broker row = some (t, s, w) →
      (t = "HIGH_PRIORITY" ∨ t = "MEDIUM_PRIORITY" ∨ t = "LOW_PRIORITY" ∨ t = "REVIEW") ∧
      (t = "HIGH_PRIORITY" ↔
        (NoteBroker.has_email row || NoteBroker.has_phone row) = true ∧ 60 ≤ s) ∧
      (t = "MEDIUM_PRIORITY" ↔
        ¬((NoteBroker.has_email row || NoteBroker.has_phone row) = true ∧ 60 ≤ s) ∧ 50 ≤ s) ∧
      (t = "LOW_PRIORITY" ↔
        ¬((NoteBroker.has_email row || NoteBroker.has_phone row) = true ∧ 60 ≤ s) ∧
          ¬(50 ≤ s) ∧ 30 ≤ s) ∧
      (t = "REVIEW" ↔
        ¬((NoteBroker.has_email row || NoteBroker.has_phone row) = true ∧ 60 ≤ s) ∧
          ¬(50 ≤ s) ∧ ¬(30 ≤ s))) ∧
    (∀ (rows : List Row) (streams : NoteBroker.TierStreams),
      NoteBroker.processTargets rows = some streams →
      streams.high.length + streams.medium.length + streams.low.length +
        streams.review.length = rows.length) := by
  constructor
  · intro row t s w h
    unfold NoteBroker.classify_for_note_broker at h
    cases he : NoteBroker.calculate_engagement_score row with
    | none => rw [he] at h; exact absurd h (by simp)
    | some p =>
        obtain ⟨es, wf⟩ := p
        rw [he] at h
        simp only at h
        split_ifs at h with h1 h2 h3 <;>
          simp only [Option.some.injEq, Prod.mk.injEq] at h <;>
          obtain ⟨rfl, rfl, rfl⟩ := h
        · exact ⟨Or.inl rfl,
            iff_of_true rfl h1,
            iff_of_false (by decide) (fun hx => hx.1 h1),
            iff_of_false (by decide) (fun hx => hx.1 h1),
            iff_of_false (by decide) (fun hx => hx.1 h1)⟩
        · exact ⟨Or.inr (Or.inl rfl),
            iff_of_false (by decide) h1,
            iff_of_true rfl ⟨h1, h2⟩,
            iff_of_false (by decide) (fun hx => hx.2.1 h2),
            iff_of_false (by decide) (fun hx => hx.2.1 h2)⟩
        · exact ⟨Or.inr (Or.inr (Or.inl rfl)),
            iff_of_false (by decide) h1,
            iff_of_false (by decide) (fun hx => h2 hx.2),
            iff_of_true rfl ⟨h1, h2, h3⟩,
            iff_of_false (by decide) (fun hx => hx.2.2 h3)⟩
        · exact ⟨Or.inr (Or.inr (Or.inr rfl)),
            iff_of_false (by decide) h1,
            iff_of_false (by decide) (fun hx => h2 hx.2),
            iff_of_false (by decide) (fun hx => h3 hx.2.2),
            iff_of_true rfl ⟨h1, h2, h3⟩⟩
  · intro rows
    induction rows with
    | nil =>
        intro streams hh
        simp only [NoteBroker.processTargets, Option.some.injEq] at hh
        rw [← hh]
        simp
    | cons row rest ih =>
        intro streams hh
        unfold NoteBroker.processTargets at hh
        cases hc : NoteBroker.classify_for_note_broker row with
        | none => rw [hc] at hh; exact absurd hh (by simp)
        | some trip =>
            obtain ⟨t, s, w⟩ := trip
            cases hp : NoteBroker.processTargets rest with
            | none => rw [hc, hp] at hh; exact absurd hh (by simp)
            | some prev =>
                rw [hc, hp] at hh
                have ihh := ih prev hp
                simp only at hh
                split_ifs at hh <;>
                  · simp only [Option.some.injEq] at hh
                    rw [← hh]
                    simp only [List.length_cons, List.length]
                    omega

/-- Witness for C3: a row classified REVIEW with engagement score 25, and a
one-row input routed entirely to the review stream. -/
theorem note_broker_tier_partition_witness :
    ((("REVIEW" : String) = "HIGH_PRIORITY" ∨ ("REVIEW" : String) = "MEDIUM_PRIORITY" ∨
       ("REVIEW" : String) = "LOW_PRIORITY" ∨ ("REVIEW" : String) = "REVIEW")) ∧
    ((NoteBroker.TierStreams.mk [] [] []
        [(({ email := "a@b.com" } : Row), (25 : Int),
          "has email + no phone + PO box or missing + owner occupied")]).high.length +
      (NoteBroker.TierStreams.mk [] [] []
        [(({ email := "a@b.com" } : Row), (25 : Int),
          "has email + no phone + PO box or missing + owner occupied")]).medium.length +
      (NoteBroker.TierStreams.mk [] [] []
        [(({ email := "a@b.com" } : Row), (25 : Int),
          "has email + no phone + PO box or missing + owner occupied")]).low.length +
      (NoteBroker.TierStreams.mk [] [] []
        [(({ email := "a@b.com" } : Row), (25 : Int),
          "has email + no phone + PO box or missing + owner occupied")]).review.length =
      ([({ email := "a@b.com" } : Row)]).length) :=
  ⟨(note_broker_tier_partition.1 ({ email := "a@b.com" } : Row) "REVIEW" 25
      "has email + no phone + PO box or missing + owner occupied" (by decide)).1,
   note_broker_tier_partition.2 [({ email := "a@b.com" } : Row)]
     (NoteBroker.TierStreams.mk [] [] []
       [(({ email := "a@b.com" } : Row), (25 : Int),
         "has email + no phone + PO box or missing + owner occupied")]) (by decide)⟩

/-- Appending one row to the group table grows the total membership by one. -/
lemma addToGroups_sizes (acc : List (String × List Row)) (k : String) (r : Row) :
    ((GroupByOwner.addToGroups acc k r).map (fun g => g.2.length)).sum =
      (acc.map (fun g => g.2.length)).sum + 1 := by
  induction acc with
  | nil => simp [GroupByOwner.addToGroups]
  | cons p rest ih =>
      obtain ⟨k', g⟩ := p
      by_cases hk : k' = k
      · simp [GroupByOwner.addToGroups, hk]
        omega
      · simp [GroupByOwner.addToGroups, hk, ih]
        omega

/-- Folding rows into the group table: total membership is the row count. -/
lemma groupsOf_sizes_aux (rows : List Row) :
    ∀ acc : List (String × List Row),
      (((rows.foldl
          (fun a r => GroupByOwner.addToGroups a (GroupByOwner.normalize_owner_key r) r)
          acc)).map (fun g => g.2.length)).sum =
        (acc.map (fun g => g.2.length)).sum + rows.length := by
  induction rows with
  | nil => intro acc; simp
  | cons r rest ih =>
      intro acc
      simp only [List.foldl_cons, List.length_cons]
      rw [ih, addToGroups_sizes]
      omega

/-- Every member of a group in the table carries the group's key, preserved
by one insertion. -/
lemma addToGroups_keys (acc : List (String × List Row)) (k : String) (r : Row)
    (hacc : ∀ key g, (key, g) ∈ acc → ∀ x ∈ g, GroupByOwner.normalize_owner_key x = key)
    (hr : GroupByOwner.normalize_owner_key r = k) :
    ∀ key g, (key, g) ∈ GroupByOwner.addToGroups acc k r →
      ∀ x ∈ g, GroupByOwner.normalize_owner_key x = key := by
  induction acc with
  | nil =>
      intro key g hm x hx
      simp only [GroupByOwner.addToGroups, List.mem_singleton, Prod.mk.injEq] at hm
      obtain ⟨rfl, rfl⟩ := hm
      simp only [List.mem_singleton] at hx
      rw [hx, hr]
  | cons p rest ih =>
      obtain ⟨k', g'⟩ := p
      intro key g hm x hx
      by_cases hk : k' = k
      · simp only [GroupByOwner.addToGroups, if_pos hk] at hm
        rcases List.mem_cons.mp hm with hh | ht
        · simp only [Prod.mk.injEq] at hh
          obtain ⟨rfl, rfl⟩ := hh
          rcases List.mem_append.mp hx with hg | hr1
          · exact hacc key g' (List.mem_cons_self _ _) x hg
          · simp only [List.mem_singleton] at hr1
            rw [hr1, hr, hk]
        · exact hacc key g (List.mem_cons_of_mem _ ht) x hx
      · simp only [GroupByOwner.addToGroups, if_neg hk] at hm
        rcases List.mem_cons.mp hm with hh | ht
        · simp only [Prod.mk.injEq] at hh
          obtain ⟨rfl, rfl⟩ := hh
          exact hacc key g (List.mem_cons_self _ _) x hx
        · exact ih (fun key2 g2 hg2 => hacc key2 g2 (List.mem_cons_of_mem _ hg2)) key g ht x hx

/-- Folding rows preserves the key invariant of the group table. -/
lemma groupsOf_keys_aux (rows : List Row) :
    ∀ acc : List (String × List Row),
      (∀ key g, (key, g) ∈ acc → ∀ x ∈ g, GroupByOwner.normalize_owner_key x = key) →
      ∀ key g,
        (key, g) ∈ rows.foldl
          (fun a r => GroupByOwner.addToGroups a (GroupByOwner.normalize_owner_key r) r) acc →
        ∀ x ∈ g, GroupByOwner.normalize_owner_key x = key := by
  induction rows with
  | nil => intro acc hacc; exact hacc
  | cons r rest ih =>
      intro acc hacc
      simp only [List.foldl_cons]
      exact ih _ (addToGroups_keys acc _ r hacc rfl)

/-- C4 counterexample: two records with identical normalized name+zip but
scores 10 and 90 form one group whose consolidated score is the FIRST
member's score plus the portfolio bonus (10 + 1 = 11), not the maximum of
the member scores (90), and not the maximum plus the bonus (91). -/
theorem owner_group_score_counterexample :
    GroupByOwner.normalize_owner_key
        ({ full_name := "JOHN SMITH", mailing_zip := "78701", engagement_score := "10",
           tcad_account_id := "A1" } : Row) =
      GroupByOwner.normalize_owner_key
        ({ full_name := "JOHN SMITH", mailing_zip := "78701", engagement_score := "90",
           tcad_account_id := "A2" } : Row) ∧
    (GroupByOwner.groupsOf
        [({ full_name := "JOHN SMITH", mailing_zip := "78701", engagement_score := "10",
            tcad_account_id := "A1" } : Row),
         ({ full_name := "JOHN SMITH", mailing_zip := "78701", engagement_score := "90",
            tcad_account_id := "A2" } : Row)]).map (fun g => g.2.length) = [2] ∧
    GroupByOwner.groupScoreCount
        [({ full_name := "JOHN SMITH", mailing_zip := "78701", engagement_score := "10",
            tcad_account_id := "A1" } : Row),
         ({ full_name := "JOHN SMITH", mailing_zip := "78701", engagement_score := "90",
            tcad_account_id := "A2" } : Row)] = some ("11", 2) ∧
    ("11" : String) ≠ toString (max (10 : Int) 90) ∧
    ("11" : String) ≠ toString (min (100 : Int) (max (10 : Int) 90 + min 10 1)) := by
  decide

/-- C4 amended: the deduplicator loses no record (group sizes sum to the
input count, every member carries its group's key), and a multi-member
group's final score is the FIRST member's parsed score plus the bounded
portfolio bonus `min 10 (count - 1)`, capped at 100 — not the maximum of the
member scores; the aggregate count is the number of members. -/
theorem owner_group_first_member_score :
    (∀ rows : List Row,
      ((GroupByOwner.groupsOf rows).map (fun g => g.2.length)).sum = rows.length) ∧
    (∀ (rows : List Row) (key : String) (group : List Row),
      (key, group) ∈ GroupByOwner.groupsOf rows →
      ∀ r ∈ group, GroupByOwner.normalize_owner_key r = key) ∧
    (∀ (base : Row) (rest : List Row) (es : Int),
      rest ≠ [] →
      pyInt? (pyOr base.engagement_score "0") = some es →
      GroupByOwner.groupScoreCount (base :: rest) =
        some (toString (min 100 (es + min 10 (rest.length : Int))), rest.length + 1)) := by
  refine ⟨?_, ?_, ?_⟩
  · intro rows
    have := groupsOf_sizes_aux rows []
    simpa [GroupByOwner.groupsOf] using this
  · intro rows key group hm r hr
    exact groupsOf_keys_aux rows [] (by simp) key group hm r hr
  · intro base rest es hne hp
    cases rest with
    | nil => exact absurd rfl hne
    | cons a l =>
        simp only [GroupByOwner.groupScoreCount, List.length_cons]
        rw [if_pos (by omega), hp]
        simp only [Option.some.injEq, Prod.mk.injEq]
        constructor
        · congr 1
          rw [show ((l.length + 1 + 1 : Nat) : Int) - 1 = ((l.length + 1 : Nat) : Int) by
                push_cast; ring]
        · trivial

/-- Witness for C4 at a two-member group with first score 10. -/
theorem owner_group_first_member_score_witness :
    GroupByOwner.groupScoreCount
        [({ engagement_score := "10" } : Row), ({ engagement_score := "90" } : Row)] =
      some (toString (min (100 : Int) (10 + min 10 (([({ engagement_score := "90" } : Row)]).length : Int))),
        ([({ engagement_score := "90" } : Row)]).length + 1) :=
  owner_group_first_member_score.2.2 ({ engagement_score := "10" } : Row)
    [({ engagement_score := "90" } : Row)] 10 (by decide) (by decide)

/-- Splitting at a separator element that occurs in neither left part is
injective. -/
lemma sep_split_inj {α : Type} (c : α) :
    ∀ (l1 l2 r1 r2 : List α), c ∉ l1 → c ∉ l2 →
      l1 ++ c :: r1 = l2 ++ c :: r2 → l1 = l2 ∧ r1 = r2 := by
  intro l1
  induction l1 with
  | nil =>
      intro l2 r1 r2 _ h2 heq
      cases l2 with
      | nil => simpa using heq
      | cons b t =>
          simp only [List.nil_append, List.cons_append, List.cons.injEq] at heq
          exact absurd (heq.1 ▸ List.mem_cons_self b t) h2
  | cons a t ih =>
      intro l2 r1 r2 h1 h2 heq
      cases l2 with
      | nil =>
          simp only [List.nil_append, List.cons_append, List.cons.injEq] at heq
          exact absurd (heq.1 ▸ List.mem_cons_self a t) h1
      | cons b t2 =>
          simp only [List.cons_append, List.cons.injEq] at heq
          obtain ⟨rfl, heq2⟩ := heq
          obtain ⟨rfl, rfl⟩ := ih t2 r1 r2 (fun hm => h1 (List.mem_cons_of_mem _ hm))
            (fun hm => h2 (List.mem_cons_of_mem _ hm)) heq2
          exact ⟨rfl, rfl⟩

/-- Pipe-joined keys are injective when the name parts are pipe-free. -/
lemma pipe_key_inj (a1 b1 a2 b2 : String)
    (h1 : '|' ∉ a1.data) (h2 : '|' ∉ a2.data)
    (he : a1 ++ "|" ++ b1 = a2 ++ "|" ++ b2) : a1 = a2 ∧ b1 = b2 := by
  have he2 : a1.data ++ '|' :: b1.data = a2.data ++ '|' :: b2.data := by
    have h3 := String.ext_iff.mp he
    have hd : ∀ x y : String, (x ++ y).data = x.data ++ y.data := fun x y => rfl
    simpa [hd, List.append_assoc] using h3
  obtain ⟨hA, hB⟩ := sep_split_inj '|' a1.data a2.data b1.data b2.data h1 h2 he2
  exact ⟨String.ext hA, String.ext hB⟩

/-- C5 counterexample: two records sharing a nonempty company name and zip
fall into DIFFERENT groups because `normalize_owner_key` prefers the
personal `full_name` over the company name — the opposite preference to the
claim's. -/
theorem owner_key_preference_counterexample :
    ({ full_name := "JOHN SMITH", company_name := "ACME LLC",
       mailing_zip := "78701" } : Row).company_name =
      ({ full_name := "JANE DOE", company_name := "ACME LLC",
         mailing_zip := "78701" } : Row).company_name ∧
    ({ full_name := "JOHN SMITH", company_name := "ACME LLC",
       mailing_zip := "78701" } : Row).company_name ≠ "" ∧
    ({ full_name := "JOHN SMITH", company_name := "ACME LLC",
       mailing_zip := "78701" } : Row).mailing_zip =
      ({ full_name := "JANE DOE", company_name := "ACME LLC",
         mailing_zip := "78701" } : Row).mailing_zip ∧
    GroupByOwner.normalize_owner_key
        ({ full_name := "JOHN SMITH", company_name := "ACME LLC",
           mailing_zip := "78701" } : Row) = "JOHN SMITH|78701" ∧
    GroupByOwner.normalize_owner_key
        ({ full_name := "JOHN SMITH", company_name := "ACME LLC",
           mailing_zip := "78701" } : Row) ≠
      GroupByOwner.normalize_owner_key
        ({ full_name := "JANE DOE", company_name := "ACME LLC",
           mailing_zip := "78701" } : Row) ∧
    (GroupByOwner.groupsOf
        [({ full_name := "JOHN SMITH", company_name := "ACME LLC",
            mailing_zip := "78701" } : Row),
         ({ full_name := "JANE DOE", company_name := "ACME LLC",
            mailing_zip := "78701" } : Row)]).length = 2 := by
  decide

/-- C5 amended: the grouping key is the normalized (uppercased,
whitespace-stripped) name joined to the stripped postal code with `|`, but
the preference is the PERSONAL `full_name` first, with the company name used
only when the full name strips to empty; records agreeing on that preferred
name and zip get the same key, and records differing on either get
different keys whenever the preferred names are pipe-free. -/
theorem owner_key_prefers_full_name :
    (∀ row : Row, GroupByOwner.normalize_owner_key row =
        GroupByOwner.preferredName row ++ "|" ++ row.mailing_zip.pyStrip) ∧
    (∀ r1 r2 : Row, GroupByOwner.preferredName r1 = GroupByOwner.preferredName r2 →
        r1.mailing_zip.pyStrip = r2.mailing_zip.pyStrip →
        GroupByOwner.normalize_owner_key r1 = GroupByOwner.normalize_owner_key r2) ∧
    (∀ r1 r2 : Row, '|' ∉ (GroupByOwner.preferredName r1).data →
        '|' ∉ (GroupByOwner.preferredName r2).data →
        (GroupByOwner.preferredName r1 ≠ GroupByOwner.preferredName r2 ∨
          r1.mailing_zip.pyStrip ≠ r2.mailing_zip.pyStrip) →
        GroupByOwner.normalize_owner_key r1 ≠ GroupByOwner.normalize_owner_key r2) := by
  have hkey : ∀ row : Row, GroupByOwner.normalize_owner_key row =
      GroupByOwner.preferredName row ++ "|" ++ row.mailing_zip.pyStrip := by
    intro row
    rfl
  refine ⟨hkey, ?_, ?_⟩
  · intro r1 r2 hn hz
    rw [hkey, hkey, hn, hz]
  · intro r1 r2 hp1 hp2 hne heq
    rw [hkey, hkey] at heq
    obtain ⟨hn, hz⟩ := pipe_key_inj _ _ _ _ hp1 hp2 heq
    rcases hne with hne | hne
    · exact hne hn
    · exact hne hz

/-- Witness for C5: same preferred name and zip agree on the key; a
different name yields a different key. -/
theorem owner_key_prefers_full_name_witness :
    GroupByOwner.normalize_owner_key
        ({ full_name := " john smith ", company_name := "ACME LLC",
           mailing_zip := "78701" } : Row) =
      GroupByOwner.normalize_owner_key
        ({ full_name := "JOHN SMITH", mailing_zip := " 78701 " } : Row) ∧
    GroupByOwner.normalize_owner_key
        ({ full_name := "JOHN SMITH", mailing_zip := "78701" } : Row) ≠
      GroupByOwner.normalize_owner_key
        ({ full_name := "JANE DOE", mailing_zip := "78701" } : Row) :=
  ⟨owner_key_prefers_full_name.2.1
      ({ full_name := " john smith ", company_name := "ACME LLC",
         mailing_zip := "78701" } : Row)
      ({ full_name := "JOHN SMITH", mailing_zip := " 78701 " } : Row)
      (by decide) (by decide),
   owner_key_prefers_full_name.2.2
      ({ full_name := "JOHN SMITH", mailing_zip := "78701" } : Row)
      ({ full_name := "JANE DOE", mailing_zip := "78701" } : Row)
      (by decide) (by decide) (Or.inl (by decide))⟩

/-- Keyword containment over a concatenated keyword list splits. -/
lemma contains_keyword_append (t : String) (A B : List String) :
    ClassifyRoles.contains_keyword t (A ++ B) =
      (ClassifyRoles.contains_keyword t A || ClassifyRoles.contains_keyword t B) := by
  unfold ClassifyRoles.contains_keyword
  by_cases h : t = ""
  · simp [h]
  · simp [h, List.any_append]

/-- C6 counterexample: the short keyword-free, suffix-free name "JOHN SMITH"
with no explicit person hint is classified UNKNOWN, not individual-person:
the short-name branch of `classify_entity_role` still requires
`owner_type == "PERSON"`. -/
theorem individual_inference_counterexample :
    ClassifyRoles.contains_keyword
        (ClassifyRoles.get_entity_name ({ full_name := "JOHN SMITH" } : Row))
        ClassifyRoles.BANK_KEYWORDS = false ∧
    ClassifyRoles.contains_keyword
        (ClassifyRoles.get_entity_name ({ full_name := "JOHN SMITH" } : Row))
        ClassifyRoles.GOV_KEYWORDS = false ∧
    ClassifyRoles.contains_keyword
        (ClassifyRoles.get_entity_name ({ full_name := "JOHN SMITH" } : Row))
        ClassifyRoles.UTILITY_KEYWORDS = false ∧
    ClassifyRoles.contains_keyword
        (ClassifyRoles.get_entity_name ({ full_name := "JOHN SMITH" } : Row))
        ClassifyRoles.TRUST_KEYWORDS = false ∧
    ClassifyRoles.contains_keyword
        (ClassifyRoles.get_entity_name ({ full_name := "JOHN SMITH" } : Row))
        ClassifyRoles.INVESTOR_KEYWORDS = false ∧
    ClassifyRoles.contains_keyword
        (ClassifyRoles.get_entity_name ({ full_name := "JOHN SMITH" } : Row))
        ClassifyRoles.LEGAL_KEYWORDS = false ∧
    ClassifyRoles.has_entity_indicator ({ full_name := "JOHN SMITH" } : Row) = false ∧
    (pySplit (ClassifyRoles.get_entity_name ({ full_name := "JOHN SMITH" } : Row))).length ≤ 5 ∧
    ({ full_name := "JOHN SMITH" } : Row).owner_type = "" ∧
    ClassifyRoles.classify_entity_role ({ full_name := "JOHN SMITH" } : Row) =
      ("UNKNOWN", "no matching keywords or patterns") ∧
    (ClassifyRoles.classify_entity_role ({ full_name := "JOHN SMITH" } : Row)).1 ≠
      "INDIVIDUAL_PERSON" := by
  decide

/-- C6 amended: `classify_entity_role` returns INDIVIDUAL_PERSON exactly
when the name is nonempty, no keyword of any higher-precedence list matches,
the name has no corporate-suffix token, AND the explicit person hint
(`owner_type == "PERSON"`, uppercased) is supplied — the ≤5-token path never
fires without the hint, so a short keyword-free name alone is not enough. -/
theorem individual_person_requires_hint :
    ∀ row : Row, (ClassifyRoles.classify_entity_role row).1 = "INDIVIDUAL_PERSON" ↔
      (ClassifyRoles.get_entity_name row ≠ "" ∧
       ClassifyRoles.contains_keyword (ClassifyRoles.get_entity_name row)
         ClassifyRoles.BANK_KEYWORDS = false ∧
       ClassifyRoles.contains_keyword (ClassifyRoles.get_entity_name row)
         ClassifyRoles.GOV_KEYWORDS = false ∧
       ClassifyRoles.contains_keyword (ClassifyRoles.get_entity_name row)
         ClassifyRoles.UTILITY_KEYWORDS = false ∧
       ClassifyRoles.contains_keyword (ClassifyRoles.get_entity_name row)
         ClassifyRoles.TRUST_KEYWORDS = false ∧
       ClassifyRoles.contains_keyword (ClassifyRoles.get_entity_name row)
         ClassifyRoles.INVESTOR_KEYWORDS = false ∧
       ClassifyRoles.contains_keyword (ClassifyRoles.get_entity_name row)
         ClassifyRoles.LEGAL_KEYWORDS = false ∧
       ClassifyRoles.has_entity_indicator row = false ∧
       row.owner_type.pyUpper = "PERSON") := by
  intro row
  simp only [ClassifyRoles.classify_entity_role]
  split_ifs with h1 h2 h3 h4 h5 h6 h7 h8 h9 <;>
    simp_all [contains_keyword_append]
  intro hind hperson
  simp [h8 hperson] at hind

/-- A line shorter than the maximum declared end position is rejected with
the exact "Line too short" message and an empty record. -/
lemma parse_line_short (line : String) (n : Nat) (h : line.length < PropMain.maxEndPos) :
    PropMain.parse_line line n = ([], some (PropMain.tooShortMsg n line.length)) := by
  unfold PropMain.parse_line
  rw [if_pos h]

/-- C8: a fixed-width line shorter than the maximum declared end position
over all of FIELD_SPECS yields no record and exactly the message
"Line N: Line too short (expected at least {max_end} chars, got {len})",
and the processing loop routes such a (nonempty) line to the error stream
only — the clean stream is exactly the one of the remaining lines. -/
theorem short_line_rejected :
    (∀ (line : String) (n : Nat), line.length < PropMain.maxEndPos →
      PropMain.parse_line line n = ([], some (PropMain.tooShortMsg n line.length))) ∧
    (∀ (n : Nat) (line : String) (rest : List String),
      line.pyStrip ≠ "" → line.length < PropMain.maxEndPos →
      PropMain.processLines n (line :: rest) =
        ((PropMain.processLines (n + 1) rest).1,
         (n, line, PropMain.tooShortMsg n line.length) ::
           (PropMain.processLines (n + 1) rest).2)) := by
  constructor
  · exact fun line n h => parse_line_short line n h
  · intro n line rest h1 h2
    simp only [PropMain.processLines]
    rw [if_neg h1, parse_line_short line n h2]

/-- Witness for C8 at the one-character line "X". -/
theorem short_line_rejected_witness :
    PropMain.parse_line "X" 1 = ([], some (PropMain.tooShortMsg 1 ("X" : String).length)) ∧
    PropMain.processLines 1 ["X"] =
      ((PropMain.processLines 2 []).1,
       (1, "X", PropMain.tooShortMsg 1 ("X" : String).length) ::
         (PropMain.processLines 2 []).2) :=
  ⟨short_line_rejected.1 "X" 1 (by decide),
   short_line_rejected.2 1 "X" [] (by decide) (by decide)⟩

/-- Lookup after in-place set at the same key. -/
lemma afind_dset_same (d : MergeEnrich.Dict) (k v : String) :
    MergeEnrich.afind (MergeEnrich.dset d k v) k = some v := by
  induction d with
  | nil => simp [MergeEnrich.dset, MergeEnrich.afind]
  | cons p rest ih =>
      obtain ⟨k', v'⟩ := p
      by_cases hk : k' = k
      · simp [MergeEnrich.dset, MergeEnrich.afind, hk]
      · simp [MergeEnrich.dset, MergeEnrich.afind, hk, ih]

/-- Lookup after in-place set at a different key. -/
lemma afind_dset_other (d : MergeEnrich.Dict) (k v k2 : String) (h : k2 ≠ k) :
    MergeEnrich.afind (MergeEnrich.dset d k v) k2 = MergeEnrich.afind d k2 := by
  induction d with
  | nil =>
      simp only [MergeEnrich.dset, MergeEnrich.afind]
      rw [if_neg (fun hh => h hh.symm)]
  | cons p rest ih =>
      obtain ⟨k', v'⟩ := p
      by_cases hk : k' = k
      · simp only [MergeEnrich.dset, if_pos hk, MergeEnrich.afind]
        rw [if_neg (fun hh => h hh.symm), if_neg (fun hh => h (hk ▸ hh).symm)]
      · simp only [MergeEnrich.dset, if_neg hk, MergeEnrich.afind]
        by_cases hq : k' = k2
        · rw [if_pos hq, if_pos hq]
        · rw [if_neg hq, if_neg hq, ih]

/-- The `if key missing then fill with "" else leave` step of the merge: the
key is present afterwards, its `get` value is unchanged (absent reads as
`""` before and after), and every other key is untouched. -/
lemma ensure_step (d : MergeEnrich.Dict) (k : String) :
    MergeEnrich.dhas
        (if MergeEnrich.dhas d k = false then MergeEnrich.dset d k "" else d) k = true ∧
    MergeEnrich.dget
        (if MergeEnrich.dhas d k = false then MergeEnrich.dset d k "" else d) k =
      MergeEnrich.dget d k ∧
    (∀ k2, k2 ≠ k →
      MergeEnrich.afind
          (if MergeEnrich.dhas d k = false then MergeEnrich.dset d k "" else d) k2 =
        MergeEnrich.afind d k2) := by
  by_cases h : MergeEnrich.dhas d k = false
  · rw [if_pos h]
    have hnone : MergeEnrich.afind d k = none := by
      unfold MergeEnrich.dhas at h
      exact Option.not_isSome_iff_eq_none.mp (by simp [h])
    refine ⟨?_, ?_, ?_⟩
    · unfold MergeEnrich.dhas
      rw [afind_dset_same]
      rfl
    · unfold MergeEnrich.dget
      rw [afind_dset_same, hnone]
      rfl
    · intro k2 hk2
      exact afind_dset_other d k "" k2 hk2
  · rw [if_neg h]
    exact ⟨(Bool.not_eq_false _).mp h, rfl, fun _ _ => rfl⟩

/-- The `copy non-empty secondary value, else fill-if-absent` step of the
merge: the key's value becomes the secondary value when that is nonempty and
keeps the primary value otherwise; other keys are untouched. -/
lemma set_or_ensure (d : MergeEnrich.Dict) (k v : String) :
    MergeEnrich.dget
        (if v ≠ "" then MergeEnrich.dset d k v
         else if MergeEnrich.dhas d k = false then MergeEnrich.dset d k "" else d) k =
      (if v ≠ "" then v else MergeEnrich.dget d k) ∧
    (∀ k2, k2 ≠ k →
      MergeEnrich.afind
          (if v ≠ "" then MergeEnrich.dset d k v
           else if MergeEnrich.dhas d k = false then MergeEnrich.dset d k "" else d) k2 =
        MergeEnrich.afind d k2) := by
  by_cases hv : v ≠ ""
  · simp only [if_pos hv]
    constructor
    · unfold MergeEnrich.dget
      rw [afind_dset_same]
      rfl
    · intro k2 hk2
      exact afind_dset_other d k v k2 hk2
  · simp only [if_neg hv]
    obtain ⟨-, e2, e3⟩ := ensure_step d k
    exact ⟨e2, e3⟩

/-- C9: the enrichment merge drops no primary record — the output has one
row per input row; the unmatched counter counts exactly the rows whose
stripped lead_id is absent from the lookup; an unmatched row is emitted with
email and phone keys present, their values unchanged (so `""` when they were
absent); a matched row copies a secondary contact value only when it is
nonempty, keeping the primary value otherwise. -/
theorem merge_preserves_rows :
    (∀ (lookup : List (String × MergeEnrich.Dict)) (rows : List MergeEnrich.Dict),
      (MergeEnrich.merge_enrichment lookup rows).1.length = rows.length) ∧
    (∀ (lookup : List (String × MergeEnrich.Dict)) (rows : List MergeEnrich.Dict),
      (MergeEnrich.merge_enrichment lookup rows).2.2 =
        (rows.filter (fun row =>
          (MergeEnrich.afind lookup ((MergeEnrich.dget row "lead_id").pyStrip)).isNone)).length) ∧
    (∀ (lookup : List (String × MergeEnrich.Dict)) (row : MergeEnrich.Dict),
      MergeEnrich.afind lookup ((MergeEnrich.dget row "lead_id").pyStrip) = none →
      (MergeEnrich.mergeRow lookup row).2 = false ∧
      MergeEnrich.dhas (MergeEnrich.mergeRow lookup row).1 "email" = true ∧
      MergeEnrich.dhas (MergeEnrich.mergeRow lookup row).1 "phone" = true ∧
      MergeEnrich.dget (MergeEnrich.mergeRow lookup row).1 "email" =
        MergeEnrich.dget row "email" ∧
      MergeEnrich.dget (MergeEnrich.mergeRow lookup row).1 "phone" =
        MergeEnrich.dget row "phone") ∧
    (∀ (lookup : List (String × MergeEnrich.Dict)) (row er : MergeEnrich.Dict),
      MergeEnrich.afind lookup ((MergeEnrich.dget row "lead_id").pyStrip) = some er →
      (MergeEnrich.mergeRow lookup row).2 = true ∧
      MergeEnrich.dget (MergeEnrich.mergeRow lookup row).1 "email" =
        (if (MergeEnrich.dget er "email").pyStrip ≠ ""
         then (MergeEnrich.dget er "email").pyStrip else MergeEnrich.dget row "email") ∧
      MergeEnrich.dget (MergeEnrich.mergeRow lookup row).1 "phone" =
        (if (MergeEnrich.dget er "phone").pyStrip ≠ ""
         then (MergeEnrich.dget er "phone").pyStrip else MergeEnrich.dget row "phone")) := by
  have hstep : ∀ (lookup : List (String × MergeEnrich.Dict)) (row : MergeEnrich.Dict),
      (MergeEnrich.mergeRow lookup row).2 =
        (MergeEnrich.afind lookup ((MergeEnrich.dget row "lead_id").pyStrip)).isSome := by
    intro lookup row
    unfold MergeEnrich.mergeRow
    cases hf : MergeEnrich.afind lookup ((MergeEnrich.dget row "lead_id").pyStrip) <;>
      simp [hf]
  refine ⟨?_, ?_, ?_, ?_⟩
  · intro lookup rows
    induction rows with
    | nil => simp [MergeEnrich.merge_enrichment]
    | cons r rest ih => simp [MergeEnrich.merge_enrichment, ih]
  · intro lookup rows
    induction rows with
    | nil => simp [MergeEnrich.merge_enrichment]
    | cons r rest ih =>
        simp only [MergeEnrich.merge_enrichment, List.filter_cons]
        cases hf : MergeEnrich.afind lookup ((MergeEnrich.dget r "lead_id").pyStrip) with
        | none =>
            have h2 : (MergeEnrich.mergeRow lookup r).2 = false := by
              rw [hstep, hf]; rfl
            simp [h2, hf, ih]
            omega
        | some er =>
            have h2 : (MergeEnrich.mergeRow lookup r).2 = true := by
              rw [hstep, hf]; rfl
            simp [h2, hf, ih]
  · intro lookup row hfind
    have hm : MergeEnrich.mergeRow lookup row =
        ((if MergeEnrich.dhas
              (if MergeEnrich.dhas row "email" = false
               then MergeEnrich.dset row "email" "" else row) "phone" = false
          then MergeEnrich.dset
              (if MergeEnrich.dhas row "email" = false
               then MergeEnrich.dset row "email" "" else row) "phone" ""
          else (if MergeEnrich.dhas row "email" = false
               then MergeEnrich.dset row "email" "" else row)), false) := by
      unfold MergeEnrich.mergeRow
      rw [hfind]
    obtain ⟨he1, he2, he3⟩ := ensure_step row "email"
    obtain ⟨hp1, hp2, hp3⟩ := ensure_step
      (if MergeEnrich.dhas row "email" = false
       then MergeEnrich.dset row "email" "" else row) "phone"
    rw [hm]
    dsimp only
    refine ⟨rfl, ?_, hp1, ?_, ?_⟩
    · exact (congrArg Option.isSome (hp3 "email" (by decide))).trans he1
    · exact (congrArg (fun o => o.getD "") (hp3 "email" (by decide))).trans he2
    · exact hp2.trans (congrArg (fun o => o.getD "") (he3 "phone" (by decide)))
  · intro lookup row er hfind
    have hm : MergeEnrich.mergeRow lookup row =
        ((if (MergeEnrich.dget er "phone").pyStrip ≠ ""
          then MergeEnrich.dset
              (if (MergeEnrich.dget er "email").pyStrip ≠ ""
               then MergeEnrich.dset row "email" ((MergeEnrich.dget er "email").pyStrip)
               else if MergeEnrich.dhas row "email" = false
                    then MergeEnrich.dset row "email" "" else row)
              "phone" ((MergeEnrich.dget er "phone").pyStrip)
          else if MergeEnrich.dhas
              (if (MergeEnrich.dget er "email").pyStrip ≠ ""
               then MergeEnrich.dset row "email" ((MergeEnrich.dget er "email").pyStrip)
               else if MergeEnrich.dhas row "email" = false
                    then MergeEnrich.dset row "email" "" else row) "phone" = false
               then MergeEnrich.dset
                   (if (MergeEnrich.dget er "email").pyStrip ≠ ""
                    then MergeEnrich.dset row "email" ((MergeEnrich.dget er "email").pyStrip)
                    else if MergeEnrich.dhas row "email" = false
                         then MergeEnrich.dset row "email" "" else row) "phone" ""
               else (if (MergeEnrich.dget er "email").pyStrip ≠ ""
                     then MergeEnrich.dset row "email" ((MergeEnrich.dget er "email").pyStrip)
                     else if MergeEnrich.dhas row "email" = false
                          then MergeEnrich.dset row "email" "" else row)), true) := by
      simp only [MergeEnrich.mergeRow]
      rw [hfind]
    obtain ⟨se1, se2⟩ := set_or_ensure row "email" ((MergeEnrich.dget er "email").pyStrip)
    obtain ⟨sp1, sp2⟩ := set_or_ensure
      (if (MergeEnrich.dget er "email").pyStrip ≠ ""
       then MergeEnrich.dset row "email" ((MergeEnrich.dget er "email").pyStrip)
       else if MergeEnrich.dhas row "email" = false
            then MergeEnrich.dset row "email" "" else row)
      "phone" ((MergeEnrich.dget er "phone").pyStrip)
    rw [hm]
    dsimp only
    refine ⟨rfl, ?_, ?_⟩
    · exact (congrArg (fun o => o.getD "") (sp2 "email" (by decide))).trans se1
    · rw [sp1]
      by_cases hph : (MergeEnrich.dget er "phone").pyStrip ≠ ""
      · rw [if_pos hph, if_pos hph]
      · rw [if_neg hph, if_neg hph]
        exact congrArg (fun o => o.getD "") (se2 "phone" (by decide))

/-- Witness for C9: an empty lookup misses a concrete row, filling blanks;
a one-entry lookup matches it, copying the nonempty email. -/
theorem merge_preserves_rows_witness :
    ((MergeEnrich.mergeRow [] [("lead_id", "x")]).2 = false ∧
      MergeEnrich.dhas (MergeEnrich.mergeRow [] [("lead_id", "x")]).1 "email" = true ∧
      MergeEnrich.dhas (MergeEnrich.mergeRow [] [("lead_id", "x")]).1 "phone" = true ∧
      MergeEnrich.dget (MergeEnrich.mergeRow [] [("lead_id", "x")]).1 "email" =
        MergeEnrich.dget [("lead_id", "x")] "email" ∧
      MergeEnrich.dget (MergeEnrich.mergeRow [] [("lead_id", "x")]).1 "phone" =
        MergeEnrich.dget [("lead_id", "x")] "phone") ∧
    ((MergeEnrich.mergeRow [("x", [("email", " e@f.g ")])] [("lead_id", "x")]).2 = true ∧
      MergeEnrich.dget
          (MergeEnrich.mergeRow [("x", [("email", " e@f.g ")])] [("lead_id", "x")]).1
          "email" =
        (if (MergeEnrich.dget [("email", " e@f.g ")] "email").pyStrip ≠ ""
         then (MergeEnrich.dget [("email", " e@f.g ")] "email").pyStrip
         else MergeEnrich.dget [("lead_id", "x")] "email") ∧
      MergeEnrich.dget
          (MergeEnrich.mergeRow [("x", [("email", " e@f.g ")])] [("lead_id", "x")]).1
          "phone" =
        (if (MergeEnrich.dget [("email", " e@f.g ")] "phone").pyStrip ≠ ""
         then (MergeEnrich.dget [("email", " e@f.g ")] "phone").pyStrip
         else MergeEnrich.dget [("lead_id", "x")] "phone")) :=
  ⟨merge_preserves_rows.2.2.1 [] [("lead_id", "x")] (by decide),
   merge_preserves_rows.2.2.2 [("x", [("email", " e@f.g ")])] [("lead_id", "x")]
     [("email", " e@f.g ")] (by decide)⟩
